import Mathlib

/-!
Verification of `src/create_file.py`.

The script builds a large text file by repeatedly writing a fixed chunk
until the file position reaches a target size, then reports the final
size in mebibytes.  All characters written are ASCII, so UTF-8 byte
counts coincide with character counts; the model below measures file
sizes as character counts of the accumulated content string.
-/

namespace CreateFile

/-- Python string repetition `s * n` (used for `chunk = "..." * 100`). -/
def strRepeat (s : String) : Nat → String
  | 0 => ""
  | n + 1 => s ++ strRepeat s n

/-- The literal written on line 11: `"ABCDEFGHIJKLMNOPQRSTUVWXYZ0123456789\n"`. -/
def chunkUnit : String := "ABCDEFGHIJKLMNOPQRSTUVWXYZ0123456789\n"

/-- Line 11: `chunk = "ABCDEFGHIJKLMNOPQRSTUVWXYZ0123456789\n" * 100`. -/
def chunk : String := strRepeat chunkUnit 100

/-- Line 4: `target_size = 1000 * 1024 * 1024` (an `int`; modelled as `Int`
so that non-positive targets are expressible). -/
def target_size : Int := 1000 * 1024 * 1024

/-- Lines 12-13: `while f.tell() < target_size: f.write(chunk)`.
`acc` is the content written so far; `f.tell()` is its length (bytes =
characters for the ASCII content this script writes).  The chunk must be
non-empty (`hc`), exactly as in the source run; with an empty chunk the
Python loop would not terminate. -/
def writeLoopContent (T : Int) (c : String) (hc : 0 < c.length) (acc : String) : String :=
  if (acc.length : Int) < T then writeLoopContent T c hc (acc ++ c) else acc
termination_by (T - acc.length).toNat
decreasing_by
  simp only [String.length_append]
  omega

/-- Number of iterations (writes) the loop of lines 12-13 performs. -/
def numWrites (T : Int) (c : String) (hc : 0 < c.length) (acc : String) : Nat :=
  if (acc.length : Int) < T then numWrites T c hc (acc ++ c) + 1 else 0
termination_by (T - acc.length).toNat
decreasing_by
  simp only [String.length_append]
  omega

/-- Line 10: `open(file_path_1mb, "w", ...)` truncates, so a generation run
starts from empty content whatever the previous file content `prev` was. -/
def runGenerate (prev : String) (T : Int) (c : String) (hc : 0 < c.length) : String :=
  writeLoopContent T c hc ""

/-- Line 17: conversion of a byte size to mebibytes,
`actual_size / (1024 * 1024)`.  Python's `/` on these magnitudes is exact
(division by `2 ^ 20`, numerator far below `2 ^ 53`), so the rational
value is the float the script computes. -/
def reportSizeMB (S : Nat) : Rat := (S : Rat) / (1024 * 1024)

theorem strRepeat_length (s : String) (n : Nat) :
    (strRepeat s n).length = n * s.length := by
  induction n with
  | zero => simp [strRepeat]
  | succ n ih => simp [strRepeat, String.length_append, ih, Nat.succ_mul]; omega

theorem chunkUnit_length : chunkUnit.length = 37 := by decide

theorem chunk_length : chunk.length = 3700 := by
  rw [chunk, strRepeat_length, chunkUnit_length]

theorem chunk_length_pos : 0 < chunk.length := by rw [chunk_length]; norm_num

/-- The content of `./test.txt` after the script's write loop finishes. -/
def fileContent : String := writeLoopContent target_size chunk chunk_length_pos ""

/-- Line 16: `actual_size = os.path.getsize(file_path_1mb)`. -/
def actual_size : Nat := fileContent.length

/-- Line 17: `actual_size_MB = actual_size / (1024 * 1024)`. -/
def actual_size_MB : Rat := reportSizeMB actual_size

/-- The loop never stops below the target: the final content length is at
least `T` (trivially so when `T ≤ 0`, since lengths are non-negative). -/
theorem writeLoopContent_le (T : Int) (c : String) (hc : 0 < c.length) (acc : String) :
    T ≤ ((writeLoopContent T c hc acc).length : Int) := by
  by_cases h : (acc.length : Int) < T
  · rw [writeLoopContent, if_pos h]
    exact writeLoopContent_le T c hc (acc ++ c)
  · rw [writeLoopContent, if_neg h]
    omega
termination_by (T - acc.length).toNat
decreasing_by simp only [String.length_append]; omega

/-- The loop overshoots the target by less than one chunk, provided the
starting content is itself below `T + c.length`. -/
theorem writeLoopContent_lt (T : Int) (c : String) (hc : 0 < c.length) (acc : String)
    (h : (acc.length : Int) < T + c.length) :
    ((writeLoopContent T c hc acc).length : Int) < T + c.length := by
  by_cases hlt : (acc.length : Int) < T
  · rw [writeLoopContent, if_pos hlt]
    exact writeLoopContent_lt T c hc (acc ++ c)
      (by simp only [String.length_append]; omega)
  · rw [writeLoopContent, if_neg hlt]
    exact h
termination_by (T - acc.length).toNat
decreasing_by simp only [String.length_append]; omega

/-- The loop's result is the starting content followed by a whole number of
chunks: writes happen only in whole-chunk increments. -/
theorem writeLoopContent_eq_append (T : Int) (c : String) (hc : 0 < c.length) (acc : String) :
    writeLoopContent T c hc acc = acc ++ strRepeat c (numWrites T c hc acc) := by
  by_cases h : (acc.length : Int) < T
  · rw [writeLoopContent, if_pos h, numWrites, if_pos h,
      writeLoopContent_eq_append T c hc (acc ++ c)]
    show acc ++ c ++ _ = _
    rw [String.append_assoc]
    rfl
  · rw [writeLoopContent, if_neg h, numWrites, if_neg h]
    show acc = acc ++ ""
    rw [String.append_empty]
termination_by (T - acc.length).toNat
decreasing_by simp only [String.length_append]; omega

/-- Once the position has reached the target, the loop performs no write. -/
theorem writeLoopContent_of_target_le (T : Int) (c : String) (hc : 0 < c.length)
    (acc : String) (h : T ≤ (acc.length : Int)) :
    writeLoopContent T c hc acc = acc := by
  rw [writeLoopContent, if_neg (by omega)]

/-- Once the position has reached the target, no write is counted. -/
theorem numWrites_of_target_le (T : Int) (c : String) (hc : 0 < c.length)
    (acc : String) (h : T ≤ (acc.length : Int)) :
    numWrites T c hc acc = 0 := by
  rw [numWrites, if_neg (by omega)]

/-- Size of the loop result: the starting length plus a whole number of
chunk lengths. -/
theorem writeLoopContent_length (T : Int) (c : String) (hc : 0 < c.length) (acc : String) :
    (writeLoopContent T c hc acc).length = acc.length + numWrites T c hc acc * c.length := by
  rw [writeLoopContent_eq_append, String.length_append, strRepeat_length]

/-- Exact final size of the script's run: `3700 * 283399` bytes. -/
theorem actual_size_eq : actual_size = 1048576300 := by
  have h1 := writeLoopContent_le target_size chunk chunk_length_pos ""
  have h2 := writeLoopContent_lt target_size chunk chunk_length_pos ""
    (by rw [chunk_length]; norm_num [target_size])
  have h3 := writeLoopContent_length target_size chunk chunk_length_pos ""
  rw [chunk_length] at h2 h3
  rw [show ("" : String).length = 0 from rfl] at h3
  have hts : target_size = 1048576000 := by norm_num [target_size]
  show fileContent.length = 1048576300
  rw [fileContent]
  omega

/-- C1: for every positive target size `T` and non-empty chunk `c` of length
`L`, the size `S` of the file generated by the write loop satisfies
`T ≤ S < T + L`: never smaller than the target, overshooting by strictly
less than one chunk. -/
theorem c1_size_bounds (T : Int) (c : String) (hT : 0 < T) (hc : 0 < c.length) :
    T ≤ ((writeLoopContent T c hc "").length : Int) ∧
      ((writeLoopContent T c hc "").length : Int) < T + c.length := by
  refine ⟨writeLoopContent_le T c hc "", writeLoopContent_lt T c hc "" ?_⟩
  rw [show ("" : String).length = 0 from rfl]
  omega

theorem c1_size_bounds_witness :
    (0 : Int) < 5 ∧ 0 < "ab".length ∧
      ((5 : Int) ≤ ((writeLoopContent 5 "ab" (by decide) "").length : Int) ∧
        ((writeLoopContent 5 "ab" (by decide) "").length : Int) < 5 + "ab".length) :=
  ⟨by decide, by decide, c1_size_bounds 5 "ab" (by decide) (by decide)⟩

/-- C2 (amended): with the script's target of 1,048,576,000 bytes and its
chunk, whose length is 3700 bytes (not 3800), the resulting file size `S`
satisfies `1048576000 ≤ S < 1048579800` and is an exact multiple of 3700;
in fact `S = 1048576300`. -/
theorem c2_concrete_amended :
    chunk.length = 3700 ∧ 1048576000 ≤ actual_size ∧ actual_size < 1048579800 ∧
      actual_size % 3700 = 0 ∧ actual_size = 1048576300 := by
  refine ⟨chunk_length, ?_, ?_, ?_, actual_size_eq⟩ <;> rw [actual_size_eq] <;> norm_num

/-- C2 as stated is false on the code: the actual final size, 1,048,576,300,
is within the stated bounds but is not a multiple of 3800 (the chunk is 3700
bytes long, not 3800). -/
theorem c2_counterexample :
    ¬ (1048576000 ≤ actual_size ∧ actual_size < 1048579800 ∧
        actual_size % 3800 = 0) := by
  rw [actual_size_eq]
  norm_num

/-- C3: for every positive target `T` and non-empty chunk `c`, the generated
content is exactly the chunk repeated `S / L` times (integer division, `S`
the final size, `L` the chunk length): writes occur only in whole-chunk
increments. -/
theorem c3_content_repeat (T : Int) (c : String) (hT : 0 < T) (hc : 0 < c.length) :
    writeLoopContent T c hc "" =
      strRepeat c ((writeLoopContent T c hc "").length / c.length) := by
  have h := writeLoopContent_eq_append T c hc ""
  rw [String.empty_append] at h
  rw [writeLoopContent_length T c hc "", show ("" : String).length = 0 from rfl,
    Nat.zero_add, Nat.mul_div_cancel _ hc]
  exact h

theorem c3_content_repeat_witness :
    (0 : Int) < 5 ∧ 0 < "ab".length ∧
      writeLoopContent 5 "ab" (by decide) "" =
        strRepeat "ab" ((writeLoopContent 5 "ab" (by decide) "").length / "ab".length) :=
  ⟨by decide, by decide, c3_content_repeat 5 "ab" (by decide) (by decide)⟩

/-- C4: for every positive target and non-empty chunk the loop terminates —
`writeLoopContent` is total (well-founded on the distance to the target),
and every run consists of the finitely many whole-chunk writes counted by
`numWrites` — and no write occurs once the position has reached the
target: from any position `≥ T` the loop returns immediately. -/
theorem c4_terminates (T : Int) (c : String) (hT : 0 < T) (hc : 0 < c.length) :
    (∀ acc : String,
        writeLoopContent T c hc acc = acc ++ strRepeat c (numWrites T c hc acc)) ∧
      (∀ acc : String, T ≤ (acc.length : Int) →
        writeLoopContent T c hc acc = acc ∧ numWrites T c hc acc = 0) :=
  ⟨fun acc => writeLoopContent_eq_append T c hc acc,
    fun acc h => ⟨writeLoopContent_of_target_le T c hc acc h,
      numWrites_of_target_le T c hc acc h⟩⟩

theorem c4_terminates_witness :
    (0 : Int) < 5 ∧ 0 < "ab".length ∧
      ((∀ acc : String, writeLoopContent 5 "ab" (by decide) acc =
          acc ++ strRepeat "ab" (numWrites 5 "ab" (by decide) acc)) ∧
        (∀ acc : String, (5 : Int) ≤ (acc.length : Int) →
          writeLoopContent 5 "ab" (by decide) acc = acc ∧
            numWrites 5 "ab" (by decide) acc = 0)) :=
  ⟨by decide, by decide, c4_terminates 5 "ab" (by decide) (by decide)⟩

/-- C5: the target size constant equals `1000 * 1024 * 1024 = 1048576000`
bytes (1000 MiB), notwithstanding the source comment on line 3 claiming
"1MB"; it is a constant, hence immutable for the run. -/
theorem c5_target_size : target_size = 1048576000 ∧ target_size = 1000 * 1024 * 1024 :=
  ⟨by norm_num [target_size], rfl⟩

/-- C6: converting a byte size `S` to mebibytes divides by `1024 * 1024 =
1048576` exactly, with no rounding: multiplying the reported value back by
1048576 recovers `S` exactly.  The conversion is a pure function of `S`
(no side effect on any file). -/
theorem c6_report_size (S : Nat) :
    reportSizeMB S = (S : Rat) / 1048576 ∧
      (1048576 : Rat) * reportSizeMB S = (S : Rat) := by
  constructor
  · norm_num [reportSizeMB]
  · rw [reportSizeMB]
    field_simp
    ring

/-- C7: generation truncates the output file, so running against any prior
content `prev` yields the same file as running against an empty file
(overwrite, not append); re-running with unchanged `T` and chunk is
idempotent in the resulting file state, and every run satisfies the size
bound `T ≤ S < T + L`. -/
theorem c7_truncate_idempotent (prev : String) (T : Int) (c : String)
    (hT : 0 < T) (hc : 0 < c.length) :
    runGenerate prev T c hc = runGenerate "" T c hc ∧
      runGenerate (runGenerate prev T c hc) T c hc = runGenerate prev T c hc ∧
      T ≤ ((runGenerate prev T c hc).length : Int) ∧
      ((runGenerate prev T c hc).length : Int) < T + c.length := by
  refine ⟨rfl, rfl, writeLoopContent_le T c hc "", writeLoopContent_lt T c hc "" ?_⟩
  rw [show ("" : String).length = 0 from rfl]
  omega

theorem c7_truncate_idempotent_witness :
    (0 : Int) < 5 ∧ 0 < "ab".length ∧
      (runGenerate "old stuff" 5 "ab" (by decide) = runGenerate "" 5 "ab" (by decide) ∧
        runGenerate (runGenerate "old stuff" 5 "ab" (by decide)) 5 "ab" (by decide) =
          runGenerate "old stuff" 5 "ab" (by decide) ∧
        (5 : Int) ≤ ((runGenerate "old stuff" 5 "ab" (by decide)).length : Int) ∧
        ((runGenerate "old stuff" 5 "ab" (by decide)).length : Int) < 5 + "ab".length) :=
  ⟨by decide, by decide, c7_truncate_idempotent "old stuff" 5 "ab" (by decide) (by decide)⟩

/-- C9: if the target size is zero or negative the loop condition fails
before the first write, no write is performed, and the output file is left
truncated to zero bytes. -/
theorem c9_nonpositive_target (T : Int) (c : String) (hc : 0 < c.length) (hT : T ≤ 0) :
    writeLoopContent T c hc "" = "" ∧ (writeLoopContent T c hc "").length = 0 ∧
      numWrites T c hc "" = 0 := by
  have h0 : (("" : String).length : Int) = 0 := rfl
  have h := writeLoopContent_of_target_le T c hc "" (by omega)
  exact ⟨h, by rw [h]; rfl, numWrites_of_target_le T c hc "" (by omega)⟩

theorem c9_nonpositive_target_witness :
    0 < "ab".length ∧ (-3 : Int) ≤ 0 ∧
      (writeLoopContent (-3) "ab" (by decide) "" = "" ∧
        (writeLoopContent (-3) "ab" (by decide) "").length = 0 ∧
        numWrites (-3) "ab" (by decide) "" = 0) :=
  ⟨by decide, by decide, c9_nonpositive_target (-3) "ab" (by decide) (by decide)⟩

/-- C10: the program is deterministic: for a fixed target and chunk, any two
runs — whatever the prior file contents — produce bytewise-identical
content, the same final size, and the same reported mebibyte value; the
output depends on no input other than the target and the chunk. -/
theorem c10_deterministic (T : Int) (c : String) (hc : 0 < c.length)
    (prevA prevB : String) :
    runGenerate prevA T c hc = runGenerate prevB T c hc ∧
      (runGenerate prevA T c hc).length = (runGenerate prevB T c hc).length ∧
      reportSizeMB (runGenerate prevA T c hc).length =
        reportSizeMB (runGenerate prevB T c hc).length :=
  ⟨rfl, rfl, rfl⟩

theorem c10_deterministic_witness :
    0 < "ab".length ∧
      (runGenerate "run one residue" 5 "ab" (by decide) =
          runGenerate "other residue" 5 "ab" (by decide) ∧
        (runGenerate "run one residue" 5 "ab" (by decide)).length =
          (runGenerate "other residue" 5 "ab" (by decide)).length ∧
        reportSizeMB (runGenerate "run one residue" 5 "ab" (by decide)).length =
          reportSizeMB (runGenerate "other residue" 5 "ab" (by decide)).length) :=
  ⟨by decide, c10_deterministic 5 "ab" (by decide) "run one residue" "other residue"⟩

end CreateFile
